import Mathlib

/-!
# Verification of the COT/USD-ZAR backtesting core

Shallow embedding of the signal-alignment and backtesting engine of the
repository (`src/utils/backtester.py`, `src/data_engine.py`,
`src/simple_backtester.py`).

Modelling conventions:
* Dates are integers (days since an arbitrary epoch); `timedelta(days=7)`
  becomes `+ 7`.
* Prices and pip quantities are exact rationals `ℚ`; the Python code uses
  float64, whose rounding error is not the subject of any claim here, so the
  arithmetic structure is modelled exactly.  The display-only `round(x, 1)` /
  `round(x, 2)` calls applied when packing result dictionaries are omitted for
  the same reason.
* Commercial net positions and thresholds are integers (`long − short` of
  integer contract counts).
* A pandas DataFrame column becomes a field of a per-row structure; a
  DataFrame becomes a `List` of rows in its row order (the price table is
  sorted ascending by date by `Backtester.__init__` before any use, so list
  order is date order for the callers modelled here).
* Python `None` returns become `Option.none`.
-/

/-- One normalized COT report row, as produced by the COT loader:
`cot_date` and `commercial_net = commercial_long - commercial_short`
(`src/data_engine.py` lines 29-38).  Only the fields read by the aligner and
simulator are carried. -/
structure CotReport where
  cot_date : Int
  commercial_net : Int
deriving DecidableEq, Repr

/-- One daily price row `(date, price)` as produced by the price loader
(`src/utils/backtester.py` lines 85-104). -/
structure PricePoint where
  date : Int
  price : ℚ
deriving DecidableEq, Repr

/-- One aligned record, the dictionary appended at
`src/utils/backtester.py` lines 270-280. -/
structure AlignedTrade where
  cot_date : Int
  entry_date : Int
  exit_date : Int
  entry_price : ℚ
  exit_price : ℚ
  commercial_net : Int
  pips : ℚ
  pct_return : ℚ
  price_change : ℚ
deriving DecidableEq, Repr

/-- The body of the loop of `align_cot_with_prices`
(`src/utils/backtester.py` lines 244-280) for a single COT report:
entry is the first price row with `date > cot_date`
(`price_df[price_df['date'] > cot_date]` then `.iloc[0]`), exit is the first
price row with `date ≥ cot_date + 7`; if either filter is empty the report
contributes nothing (`continue` / the `len(price_on_exit) > 0` guard).
`pips = price_change * 1000` (USD/ZAR pip scale used by this file),
`pct_return = (exit - entry) / entry * 100`. -/
def alignOne (prices : List PricePoint) (r : CotReport) : Option AlignedTrade :=
  match prices.find? (fun p => decide (r.cot_date < p.date)) with
  | none => none
  | some entry =>
    match prices.find? (fun p => decide (r.cot_date + 7 ≤ p.date)) with
    | none => none
    | some exitP =>
      let price_change := exitP.price - entry.price
      some { cot_date := r.cot_date
             entry_date := entry.date
             exit_date := exitP.date
             entry_price := entry.price
             exit_price := exitP.price
             commercial_net := r.commercial_net
             pips := price_change * 1000
             pct_return := (exitP.price - entry.price) / entry.price * 100
             price_change := price_change }

/-- The list `aligned_data` built by `align_cot_with_prices`
(`src/utils/backtester.py` lines 241-280): the loop runs
`for i in range(len(cot_df) - 1)`, i.e. over every report except the last,
and appends at most one record per report. -/
def alignRecords (reports : List CotReport) (prices : List PricePoint) :
    List AlignedTrade :=
  (reports.take (reports.length - 1)).filterMap (alignOne prices)

/-- `align_cot_with_prices` (`src/utils/backtester.py` lines 282-288):
returns `None` when no record was aligned, otherwise the DataFrame of
records. -/
def align_cot_with_prices (reports : List CotReport) (prices : List PricePoint) :
    Option (List AlignedTrade) :=
  let records := alignRecords reports prices
  if records.isEmpty then none else some records

/-- `spread_pips = 3` (`src/utils/backtester.py` line 317). -/
def spread_pips : ℚ := 3

/-- `stop_loss_pips = 50` (`src/utils/backtester.py` line 321); a hard-coded
local, not a parameter of `backtest_threshold`. -/
def stop_loss_pips : ℚ := 50

/-- `position_size = (capital * risk_per_trade) / (stop_loss_pips * 10)`
(`src/utils/backtester.py` line 322). -/
def position_size (capital risk_per_trade : ℚ) : ℚ :=
  capital * risk_per_trade / (stop_loss_pips * 10)

/-- One row of the simulated-trade ledger built by `backtest_threshold`
(`src/utils/backtester.py` lines 305-331): the aligned columns kept plus
`net_pips`, `trade_profit`, `cumulative_profit`, `equity`, `win`. -/
structure SimTrade where
  commercial_net : Int
  pips : ℚ
  pct_return : ℚ
  net_pips : ℚ
  trade_profit : ℚ
  cumulative_profit : ℚ
  equity : ℚ
  win : Bool
deriving DecidableEq, Repr

/-- The per-row arithmetic of `backtest_threshold`
(`src/utils/backtester.py` lines 318-330):
`net_pips = pips - spread_pips`,
`trade_profit = net_pips * 10 * position_size`,
`cumulative_profit` is the running cumsum (threaded through `prevCum`),
`equity = capital + cumulative_profit`, `win = net_pips > 0`.
Note the code derives `trade_profit` from `net_pips` directly: no
`stop_loss_hit` flag and no capping of `net_pips` at `-stop_loss_pips`
appears anywhere in the function. -/
def mkSimTrade (capital risk_per_trade : ℚ) (t : AlignedTrade) (prevCum : ℚ) :
    SimTrade :=
  let np := t.pips - spread_pips
  let profit := np * 10 * position_size capital risk_per_trade
  let cum := prevCum + profit
  { commercial_net := t.commercial_net
    pips := t.pips
    pct_return := t.pct_return
    net_pips := np
    trade_profit := profit
    cumulative_profit := cum
    equity := capital + cum
    win := decide (np > 0) }

/-- The ledger columns of `backtest_threshold` over the selected trades in
order, threading the cumulative sum (`src/utils/backtester.py` lines
318-330). -/
def ledger (capital risk_per_trade : ℚ) :
    List AlignedTrade → ℚ → List SimTrade
  | [], _ => []
  | t :: ts, prevCum =>
    let s := mkSimTrade capital risk_per_trade t prevCum
    s :: ledger capital risk_per_trade ts s.cumulative_profit

/-- The signal filter of `backtest_threshold`
(`src/utils/backtester.py` lines 305-308):
`signal = (commercial_net < threshold)`, keep rows with `signal == 1`.
The same predicate (`self.data['commercial_net'] < threshold`) is the
`buy_signals` filter of `SimpleBacktester.analyze_thresholds`
(`src/simple_backtester.py` line 21). -/
def signalTrades (aligned : List AlignedTrade) (threshold : Int) :
    List AlignedTrade :=
  aligned.filter (fun t => decide (t.commercial_net < threshold))

/-- `backtest_threshold` (`src/utils/backtester.py` lines 294-332):
aligns, returns `None` when alignment returned `None` or empty, filters by
the signal predicate, returns `None` when no row passes, otherwise the
ledger.  Defaults in the source: `threshold=-50000, capital=10000,
risk_per_trade=0.01`; `stop_loss_pips` is fixed at 50 inside the body and no
validation of any argument is performed. -/
def backtest_threshold (reports : List CotReport) (prices : List PricePoint)
    (threshold : Int) (capital risk_per_trade : ℚ) : Option (List SimTrade) :=
  match align_cot_with_prices reports prices with
  | none => none
  | some aligned =>
    let trades := signalTrades aligned threshold
    if trades.isEmpty then none
    else some (ledger capital risk_per_trade trades 0)

/-- `winning_pips` of `Backtester.analyze_thresholds`
(`src/utils/backtester.py` line 356):
`pips[pips > 0].sum() if len(pips[pips > 0]) > 0 else 0`. -/
def winning_pips (pips : List ℚ) : ℚ :=
  if 0 < (pips.filter (fun x => decide (0 < x))).length then
    (pips.filter (fun x => decide (0 < x))).sum
  else 0

/-- `losing_pips` of `Backtester.analyze_thresholds`
(`src/utils/backtester.py` line 357):
`abs(pips[pips < 0].sum()) if len(pips[pips < 0]) > 0 else 1`. -/
def losing_pips (pips : List ℚ) : ℚ :=
  if 0 < (pips.filter (fun x => decide (x < 0))).length then
    |(pips.filter (fun x => decide (x < 0))).sum|
  else 1

/-- `profit_factor` as computed by `Backtester.analyze_thresholds`
(`src/utils/backtester.py` line 358):
`winning_pips / losing_pips if losing_pips > 0 else 0`. -/
def profit_factor_analyze (pips : List ℚ) : ℚ :=
  if 0 < losing_pips pips then winning_pips pips / losing_pips pips else 0

/-- `profit_factor` as computed by `Backtester.get_strategy_stats`
(`src/utils/backtester.py` line 424):
`abs(pips[pips > 0].sum() / pips[pips < 0].sum()) if pips[pips < 0].sum() != 0
else 0` (the display `round(·, 2)` is omitted, see the module comment). -/
def profit_factor_stats (pips : List ℚ) : ℚ :=
  let winSum := (pips.filter (fun x => decide (0 < x))).sum
  let loseSum := (pips.filter (fun x => decide (x < 0))).sum
  if loseSum ≠ 0 then |winSum / loseSum| else 0

/-- One row of the threshold-analysis table built by
`Backtester.analyze_thresholds` (`src/utils/backtester.py` lines 366-378).
Only the columns consulted by `generate_report`'s ranking are carried
(`threshold`, `trades`, `profit_factor`); the remaining columns
(`win_rate`, `avg_pips`, `total_pips`, `total_profit`, `avg_return_pct`,
`max_win_pips`, `max_loss_pips`, `max_drawdown_pct`) are display-only
aggregates not read by any code modelled here. -/
structure AnalysisRow where
  threshold : Int
  trades : Nat
  profit_factor : ℚ
deriving DecidableEq, Repr

/-- The fixed threshold list of `Backtester.analyze_thresholds`
(`src/utils/backtester.py` line 340). -/
def thresholdsList : List Int :=
  [-70000, -60000, -50000, -40000, -30000, -20000, -10000]

/-- Row construction of `Backtester.analyze_thresholds`
(`src/utils/backtester.py` lines 347-378) restricted to the ranked columns:
`trades = len(trades_df)` and the profit factor over `net_pips`. -/
def analysisRow (threshold : Int) (trades : List SimTrade) : AnalysisRow :=
  { threshold := threshold
    trades := trades.length
    profit_factor := profit_factor_analyze (trades.map (·.net_pips)) }

/-- `Backtester.analyze_thresholds` (`src/utils/backtester.py` lines
334-380): run `backtest_threshold` (with its default `capital=10000`,
`risk_per_trade=0.01`) at each fixed threshold and keep a row when the
result is not `None` and `len(trades_df) > 5`. -/
def analyze_thresholds (reports : List CotReport) (prices : List PricePoint) :
    List AnalysisRow :=
  thresholdsList.filterMap fun th =>
    match backtest_threshold reports prices th 10000 (1/100) with
    | none => none
    | some trades =>
      if 5 < trades.length then some (analysisRow th trades) else none

/-- `valid['profit_factor'].idxmax()` followed by `valid.loc[best_idx]`
(`src/utils/backtester.py` lines 470-471): pandas `idxmax` returns the first
row attaining the maximum, so a later row replaces the running best only
when strictly greater. -/
def idxmaxProfitFactor : List AnalysisRow → Option AnalysisRow
  | [] => none
  | r :: rs =>
    some (rs.foldl
      (fun best x => if best.profit_factor < x.profit_factor then x else best) r)

/-- The best-threshold selection of `Backtester.generate_report`
(`src/utils/backtester.py` lines 466-471):
`valid_thresholds = threshold_df[threshold_df['trades'] >= 10]`, and when
non-empty, `report['best_threshold']` is the row of `valid_thresholds` with
the maximal `profit_factor`. -/
def best_threshold_row (rows : List AnalysisRow) : Option AnalysisRow :=
  let valid := rows.filter (fun r => decide (10 ≤ r.trades))
  if valid.isEmpty then none else idxmaxProfitFactor valid

/-- `report['best_threshold']` of `Backtester.generate_report` as a function
of the input tables (`src/utils/backtester.py` lines 462-471). -/
def generate_report_best (reports : List CotReport) (prices : List PricePoint) :
    Option AnalysisRow :=
  best_threshold_row (analyze_thresholds reports prices)

/-- A raw row of the price CSV after the two column lookups, carrying the
outcome of `pd.to_datetime(..., errors='coerce')` on the date field and of
`pd.to_numeric(..., errors='coerce')` on the price field
(`src/utils/backtester.py` lines 85-100): `none` models `NaT`/`NaN`, i.e. a
field that failed to parse.  The string-level parsing itself is done by
pandas and is outside the embedded core; what the claims concern is how the
loader reacts to rows whose fields failed to parse. -/
structure RawPriceRow where
  date : Option Int
  price : Option ℚ
deriving DecidableEq, Repr

/-- `price_df.dropna(subset=['date', 'price'])`
(`src/utils/backtester.py` line 103): keep exactly the rows whose date and
price both parsed. -/
def parsedRows (rows : List RawPriceRow) : List PricePoint :=
  rows.filterMap fun r =>
    match r.date, r.price with
    | some d, some p => some { date := d, price := p }
    | _, _ => none

/-- `Backtester.load_price_data_from_file` (`src/utils/backtester.py` lines
72-123) after `pd.read_csv` succeeded and the date/price columns were
found: the raw frame is checked for emptiness *before* parsing
(`if price_df is None or len(price_df) == 0: return None`, line 72), the
fields are coerced with `errors='coerce'`, unparseable rows are dropped
(line 103), and the surviving frame is returned with *no* second emptiness
check — sorting and column projection do not change which rows survive and
are omitted. -/
def load_price_data_from_file (rows : List RawPriceRow) :
    Option (List PricePoint) :=
  if rows.isEmpty then none else some (parsedRows rows)

/-- `Backtester._manual_csv_parse` (`src/utils/backtester.py` lines
129-182): rows whose date or price fails to parse are skipped by the
`except/continue`, and `if dates: return df ... return None` — the manual
fallback, unlike the primary path, returns `None` when zero rows parsed. -/
def manual_csv_parse (rows : List RawPriceRow) : Option (List PricePoint) :=
  let parsed := parsedRows rows
  if parsed.isEmpty then none else some parsed

/-! ## Concrete instances used to evaluate the code at specific inputs -/

/-- Two COT reports; the first is a strong commercial short (selected at the
default threshold −50000), the second only terminates the alignment loop. -/
def c1Reports : List CotReport :=
  [{ cot_date := 0, commercial_net := -80000 },
   { cot_date := 10, commercial_net := 0 }]

/-- A price series realizing `raw_pips = −70` for the first report:
entry 17 at day 1, exit 16.93 at day 8, so
`pips = (16.93 − 17) × 1000 = −70`. -/
def c1Prices : List PricePoint :=
  [{ date := 1, price := 17 }, { date := 8, price := 1693/100 }]

/-- Like `c1Reports`/`c1Prices` but with a flat price (raw_pips = 0), used to
probe the simulator's reaction to degenerate risk parameters. -/
def c4Prices : List PricePoint :=
  [{ date := 1, price := 17 }, { date := 8, price := 17 }]

/-- Two COT reports whose commercial nets are everywhere above −50000, so the
default threshold selects nothing. -/
def c5Reports : List CotReport :=
  [{ cot_date := 0, commercial_net := -10000 },
   { cot_date := 10, commercial_net := 0 }]

/-- One raw price row in which both the date and the price failed to parse
(`NaT`/`NaN` after the `errors='coerce'` conversions). -/
def c8Rows : List RawPriceRow := [{ date := none, price := none }]

/-!
## C1

The spec claims `stop_loss_hit = net_pips < −stop_loss_pips` and
`capped_pips = −stop_loss_pips` when hit, so that no single trade loses more
than `stop_loss_pips`; for `raw_pips = −70, spread_pips = 3,
stop_loss_pips = 50` it requires `capped_pips = −50`.  The code
(`backtest_threshold`, `src/utils/backtester.py` lines 316-332) computes
`net_pips = pips - 3` and feeds it *uncapped* into
`trade_profit = net_pips * 10 * position_size`: `stop_loss_pips = 50` is
used only for position sizing (line 322) and no stop-loss cap exists.
-/

/-- **C1 (code bug).** At `raw_pips = −70` (spread 3, stop 50, default
capital 10000 and risk 0.01) the simulator's only trade carries
`net_pips = −73` and `trade_profit = −146`: the pips figure used for profit
is −73, not the −50 the claim requires, and the realized loss 146 exceeds
`stop_loss_pips × 10 × position_size = 100`, the maximum loss a 50-pip stop
would allow.  So `net_pips = raw_pips − spread_pips` holds, but there is no
`stop_loss_hit`/`capped_pips` and a single trade's loss does exceed the
stop. -/
theorem c1_stop_loss_never_applied :
    ((backtest_threshold c1Reports c1Prices (-50000) 10000 (1/100)).getD []).map
        (fun s => (s.net_pips, s.trade_profit)) = [(-73, -146)] ∧
    (-73 : ℚ) ≠ -stop_loss_pips ∧
    (-146 : ℚ) < -(stop_loss_pips * 10 * position_size 10000 (1/100)) := by
  refine ⟨?_, by norm_num [stop_loss_pips], by norm_num [stop_loss_pips, position_size]⟩
  norm_num [backtest_threshold, align_cot_with_prices, alignRecords, c1Reports, c1Prices,
    List.length_cons, List.length_nil, List.take, List.filterMap_cons, List.filterMap_nil,
    alignOne, List.find?_cons, signalTrades, List.filter_cons, List.filter_nil,
    ledger, mkSimTrade, position_size, spread_pips, stop_loss_pips]

/-!
## C4

The spec claims the simulator fails with a configuration error when
`risk_fraction ≤ 0` or `stop_loss_pips ≤ 0`.  In the code
`backtest_threshold` has no validation at all: `stop_loss_pips` is not even
a parameter (hard-coded 50 at line 321), and any `risk_per_trade` — zero or
negative — flows straight into `position_size` and the ledger.
-/

/-- **C4 (code bug).** With `risk_per_trade = 0` the simulator happily
returns a trade ledger whose every profit is 0 (position size 0 — the
misleading output the spec forbids), and with `risk_per_trade = −1/100` it
returns a ledger with sign-flipped profits; neither invocation fails. -/
theorem c4_no_configuration_error :
    (backtest_threshold c1Reports c4Prices (-50000) 10000 0).isSome = true ∧
    ((backtest_threshold c1Reports c4Prices (-50000) 10000 0).getD []).map
        (·.trade_profit) = [0] ∧
    (backtest_threshold c1Reports c4Prices (-50000) 10000 (-1/100)).isSome = true ∧
    ((backtest_threshold c1Reports c4Prices (-50000) 10000 (-1/100)).getD []).map
        (·.trade_profit) = [6] := by
  norm_num [backtest_threshold, align_cot_with_prices, alignRecords, c1Reports, c4Prices,
    List.length_cons, List.length_nil, List.take, List.filterMap_cons, List.filterMap_nil,
    alignOne, List.find?_cons, signalTrades, List.filter_cons, List.filter_nil,
    ledger, mkSimTrade, position_size, spread_pips, stop_loss_pips]

/-!
## C5

The spec claims that when no aligned trade satisfies the threshold the
simulator returns an *empty sequence* distinguishable from an error.  The
code (`src/utils/backtester.py` lines 310-312) instead does
`if len(trades_df) == 0: return None` — the very same `None` it returns when
alignment failed for missing data (lines 300-302), so the no-signal outcome
is an error-indistinguishable `None`, not an empty sequence.
-/

/-- **C5 (code bug).** On data that aligns fine (`align_cot_with_prices` is
`some`) but yields no signal at threshold −50000, `backtest_threshold`
returns `none` — and `none` is also exactly what it returns when the price
series is missing, so the two outcomes are indistinguishable and no empty
ledger is ever produced. -/
theorem c5_no_signal_returns_none :
    (align_cot_with_prices c5Reports c4Prices).isSome = true ∧
    backtest_threshold c5Reports c4Prices (-50000) 10000 (1/100) = none ∧
    backtest_threshold c5Reports [] (-50000) 10000 (1/100) = none := by
  norm_num [backtest_threshold, align_cot_with_prices, alignRecords, c5Reports, c4Prices,
    List.length_cons, List.length_nil, List.take, List.filterMap_cons, List.filterMap_nil,
    alignOne, List.find?_cons, List.find?_nil, signalTrades, List.filter_cons,
    List.filter_nil, ledger, mkSimTrade, position_size, spread_pips, stop_loss_pips]

/-!
## C6

The spec claims a single documented large finite sentinel for
`profit_factor` when there are no losing trades, identical across
`analyze_thresholds` and `get_strategy_stats`.  The code has no sentinel:
`analyze_thresholds` (line 357) substitutes `losing_pips = 1` and so returns
the *sum of winning pips* (input-dependent), while `get_strategy_stats`
(line 424) returns `0` — two different, undocumented values, one of them not
even a constant.
-/

/-- **C6 (code bug).** For loser-free pip sequences `[7, 7]` and `[9]`:
`analyze_thresholds`'s profit factor is 14 resp. 9 (the winning-pip sum, so
not a constant), while `get_strategy_stats`'s is 0 for both — the two entry
points disagree (14 ≠ 0) and neither equals a documented large sentinel. -/
theorem c6_profit_factor_sentinel_mismatch :
    (([7, 7] : List ℚ).filter (fun x => decide (x < 0))).length = 0 ∧
    (([9] : List ℚ).filter (fun x => decide (x < 0))).length = 0 ∧
    profit_factor_analyze [7, 7] = 14 ∧
    profit_factor_analyze [9] = 9 ∧
    profit_factor_stats [7, 7] = 0 ∧
    profit_factor_stats [9] = 0 ∧
    ((14 : ℚ) ≠ 9 ∧ (14 : ℚ) ≠ 0) := by
  norm_num [profit_factor_analyze, profit_factor_stats, winning_pips, losing_pips,
    List.filter_cons, List.filter_nil, List.sum_cons, List.sum_nil]

/-!
## C8

The spec claims the price loader reports failure when zero rows parse.  The
primary path of `load_price_data_from_file` checks emptiness only *before*
parsing (line 72); after `dropna` (line 103) the surviving — possibly
empty — frame is returned unconditionally, so a file whose every row fails
date/price parsing yields an empty-but-successful result.  (Only the manual
fallback `_manual_csv_parse`, used when `pd.read_csv` itself raises,
returns `None` in that case.)
-/

/-- **C8 (code bug).** A non-empty raw table whose single row parses neither
date nor price makes `load_price_data_from_file` return `some []` — an
empty success indistinguishable from "no data" — while the manual fallback
`_manual_csv_parse` on the same rows returns `none` as the claim demands. -/
theorem c8_empty_parse_reported_as_success :
    load_price_data_from_file c8Rows = some [] ∧
    (load_price_data_from_file c8Rows).isSome = true ∧
    manual_csv_parse c8Rows = none := by
  decide

/-! ## Helper lemmas -/

/-- Filtering with a pointwise-stronger predicate keeps at most as many
elements. -/
theorem length_filter_mono {α : Type} (l : List α) (p q : α → Bool)
    (h : ∀ a, p a = true → q a = true) :
    (l.filter p).length ≤ (l.filter q).length := by
  induction l with
  | nil => simp
  | cons a t ih =>
    rw [List.filter_cons, List.filter_cons]
    by_cases hp : p a = true
    · rw [if_pos hp, if_pos (h a hp)]
      simpa using ih
    · rw [if_neg hp]
      by_cases hq : q a = true
      · rw [if_pos hq]
        exact Nat.le_trans ih (Nat.le_succ _)
      · rw [if_neg hq]
        exact ih

/-!
## C2

`backtest_threshold` selects trades by `commercial_net < threshold`
(`src/utils/backtester.py` lines 304-308), the same predicate as
`SimpleBacktester.analyze_thresholds`'s `buy_signals` filter
(`src/simple_backtester.py` lines 19-25).
-/

/-- **C2 (confirmed).** For a fixed aligned-trade table and thresholds
`t1 < t2`, every trade selected at `t1` is selected at `t2`
(`commercial_net < t1` implies `commercial_net < t2`), so the selected-trade
count is non-decreasing as the threshold sweeps upward. -/
theorem c2_threshold_monotonicity (aligned : List AlignedTrade) (t1 t2 : Int)
    (h : t1 < t2) :
    (∀ x ∈ signalTrades aligned t1, x ∈ signalTrades aligned t2) ∧
    (signalTrades aligned t1).length ≤ (signalTrades aligned t2).length := by
  have himp : ∀ x : AlignedTrade,
      decide (x.commercial_net < t1) = true →
      decide (x.commercial_net < t2) = true := by
    intro x hx
    exact decide_eq_true (lt_trans (of_decide_eq_true hx) h)
  constructor
  · intro x hx
    rcases List.mem_filter.mp hx with ⟨hmem, hpred⟩
    exact List.mem_filter.mpr ⟨hmem, himp x hpred⟩
  · exact length_filter_mono aligned _ _ himp

/-- A two-row aligned table used to instantiate `c2_threshold_monotonicity`;
only `commercial_net` matters to the signal filter. -/
def c2Aligned : List AlignedTrade :=
  [{ cot_date := 0, entry_date := 1, exit_date := 8, entry_price := 17,
     exit_price := 18, commercial_net := -60000, pips := 1000,
     pct_return := 100/17, price_change := 1 },
   { cot_date := 10, entry_date := 11, exit_date := 18, entry_price := 17,
     exit_price := 18, commercial_net := -20000, pips := 1000,
     pct_return := 100/17, price_change := 1 }]

/-- Witness for C2 at the thresholds −50000 < −10000 on `c2Aligned`. -/
theorem c2_threshold_monotonicity_witness :
    (signalTrades c2Aligned (-50000)).length ≤
      (signalTrades c2Aligned (-10000)).length :=
  (c2_threshold_monotonicity c2Aligned (-50000) (-10000) (by decide)).2

/-!
## C3

`align_cot_with_prices` (`src/utils/backtester.py` lines 243-288): the loop
emits at most one record per COT report; the entry lookup is the *first*
price row with `date > cot_date` and the exit lookup the *first* with
`date ≥ cot_date + 7` (`List.find?` returns exactly the first element
satisfying its predicate, matching `price_df[...].iloc[0]` on the
date-sorted frame); a report missing either lookup is skipped, never
synthesized, and the loop raises nothing (the embedded function is total).
-/

/-- **C3 (confirmed).** Every record emitted by the alignment loop comes
from some input report, carrying exactly the first price point strictly
after `cot_date` as entry and the first price point on/after
`cot_date + 7` as exit; a report for which either lookup fails contributes
no record; and at most one record is emitted per report (the output is
never longer than the input). -/
theorem c3_alignment_drops_missing_coverage (reports : List CotReport)
    (prices : List PricePoint) :
    (∀ t ∈ alignRecords reports prices, ∃ r ∈ reports,
        prices.find? (fun p => decide (r.cot_date < p.date)) =
          some { date := t.entry_date, price := t.entry_price } ∧
        prices.find? (fun p => decide (r.cot_date + 7 ≤ p.date)) =
          some { date := t.exit_date, price := t.exit_price } ∧
        t.cot_date = r.cot_date ∧ t.commercial_net = r.commercial_net) ∧
    (∀ r : CotReport,
        prices.find? (fun p => decide (r.cot_date < p.date)) = none ∨
        prices.find? (fun p => decide (r.cot_date + 7 ≤ p.date)) = none →
        alignOne prices r = none) ∧
    (alignRecords reports prices).length ≤ reports.length := by
  refine ⟨?_, ?_, ?_⟩
  · intro t ht
    rcases List.mem_filterMap.mp ht with ⟨r, hr, halign⟩
    refine ⟨r, List.mem_of_mem_take hr, ?_⟩
    unfold alignOne at halign
    cases he : prices.find? (fun p => decide (r.cot_date < p.date)) with
    | none => rw [he] at halign; exact absurd halign (by simp)
    | some e =>
      rw [he] at halign
      cases hx : prices.find? (fun p => decide (r.cot_date + 7 ≤ p.date)) with
      | none => rw [hx] at halign; exact absurd halign (by simp)
      | some x =>
        rw [hx] at halign
        simp only [Option.some.injEq] at halign
        subst halign
        exact ⟨rfl, rfl, rfl, rfl⟩
  · intro r h
    unfold alignOne
    rcases h with h | h
    · rw [h]
    · cases he : prices.find? (fun p => decide (r.cot_date < p.date)) with
      | none => rfl
      | some e => rw [h]
  · calc (alignRecords reports prices).length
        ≤ (reports.take (reports.length - 1)).length :=
          List.length_filterMap_le _ _
      _ ≤ reports.length := by
          rw [List.length_take]; exact min_le_of_right_le (Nat.le_refl _)

/-- Witness for C3: the length bound evaluated on the concrete C1 data. -/
theorem c3_alignment_drops_missing_coverage_witness :
    (alignRecords c1Reports c1Prices).length ≤ c1Reports.length :=
  (c3_alignment_drops_missing_coverage c1Reports c1Prices).2.2

/-!
## C9

The loop header of `align_cot_with_prices` is
`for i in range(len(cot_df) - 1)` (`src/utils/backtester.py` line 243): the
last COT report (the last row of the date-sorted frame, i.e. the
chronologically last report) is never visited, so it is never emitted — no
matter what price coverage exists for it — and at most `n − 1` records are
produced from `n ≥ 1` reports.
-/

/-- **C9 (confirmed).** For every non-empty report list `rs ++ [lastR]`, the
alignment output equals the output computed from `rs` alone — it does not
depend on the last report at all, so the last report is never emitted even
when qualifying entry/exit price points exist for it — and the record count
is at most `n − 1`. -/
theorem c9_last_report_never_emitted (rs : List CotReport) (lastR : CotReport)
    (prices : List PricePoint) :
    alignRecords (rs ++ [lastR]) prices = rs.filterMap (alignOne prices) ∧
    (alignRecords (rs ++ [lastR]) prices).length + 1 ≤ (rs ++ [lastR]).length := by
  have htake : (rs ++ [lastR]).take ((rs ++ [lastR]).length - 1) = rs := by
    have hlen : (rs ++ [lastR]).length - 1 = rs.length := by simp
    rw [hlen]
    exact List.take_left rs [lastR]
  have heq : alignRecords (rs ++ [lastR]) prices = rs.filterMap (alignOne prices) := by
    unfold alignRecords
    rw [htake]
  refine ⟨heq, ?_⟩
  rw [heq]
  have hle : (rs.filterMap (alignOne prices)).length ≤ rs.length :=
    List.length_filterMap_le _ _
  simp only [List.length_append, List.length_cons, List.length_nil]
  omega

/-- The running best of the `idxmax` fold is one of the candidates. -/
theorem foldl_choice_mem (rs : List AnalysisRow) (r : AnalysisRow) :
    rs.foldl
        (fun best x => if best.profit_factor < x.profit_factor then x else best)
        r ∈ r :: rs := by
  induction rs generalizing r with
  | nil => simp
  | cons a t ih =>
    simp only [List.foldl_cons]
    by_cases h : r.profit_factor < a.profit_factor
    · rw [if_pos h]
      exact List.mem_cons_of_mem r (ih a)
    · rw [if_neg h]
      rcases List.mem_cons.mp (ih r) with h1 | h1
      · exact List.mem_cons.mpr (Or.inl h1)
      · exact List.mem_cons_of_mem r (List.mem_cons_of_mem a h1)

/-- `idxmaxProfitFactor` returns an element of its input list. -/
theorem idxmaxProfitFactor_mem (l : List AnalysisRow) (b : AnalysisRow)
    (h : idxmaxProfitFactor l = some b) : b ∈ l := by
  cases l with
  | nil => exact absurd h (by simp [idxmaxProfitFactor])
  | cons r rs =>
    simp only [idxmaxProfitFactor, Option.some.injEq] at h
    subst h
    exact foldl_choice_mem rs r

/-- Whatever row `generate_report`'s ranking selects has passed the
`trades >= 10` filter. -/
theorem best_row_trades_ge (rows : List AnalysisRow) (b : AnalysisRow)
    (h : best_threshold_row rows = some b) : 10 ≤ b.trades := by
  simp only [best_threshold_row] at h
  by_cases hv : (rows.filter (fun r => decide (10 ≤ r.trades))).isEmpty = true
  · rw [if_pos hv] at h
    exact absurd h (by simp)
  · rw [if_neg hv] at h
    have hb := idxmaxProfitFactor_mem _ _ h
    exact of_decide_eq_true (List.mem_filter.mp hb).2

/-!
## C7

`analyze_thresholds` (`src/utils/backtester.py` lines 334-380) produces the
sweep table, and `generate_report` (lines 466-471) ranks it:
`valid_thresholds = threshold_df[threshold_df['trades'] >= 10]` and
`best_idx = valid_thresholds['profit_factor'].idxmax()` — so a combination
with fewer than 10 trades can never be the ranked `best_threshold`, however
large its profit factor.
-/

/-- **C7 (confirmed).** Any sweep row with fewer than 10 selected trades —
even one whose profit factor is maximal over the whole unfiltered sweep
table — is never selected as `best_threshold` by `generate_report`'s
ranking. -/
theorem c7_small_samples_excluded_from_ranking (reports : List CotReport)
    (prices : List PricePoint) (r : AnalysisRow)
    (_hmem : r ∈ analyze_thresholds reports prices)
    (hsmall : r.trades < 10)
    (_hmax : ∀ s ∈ analyze_thresholds reports prices,
      s.profit_factor ≤ r.profit_factor) :
    generate_report_best reports prices ≠ some r := by
  intro hbest
  have hbest' : best_threshold_row (analyze_thresholds reports prices) = some r :=
    hbest
  have h10 := best_row_trades_ge (analyze_thresholds reports prices) r hbest'
  omega

/-- Thirteen COT reports: six strong commercial shorts (net −80000), six
mild shorts (net −15000), and a final report that only terminates the
alignment loop. -/
def c7Reports : List CotReport :=
  [{ cot_date := 0, commercial_net := -80000 },
   { cot_date := 10, commercial_net := -80000 },
   { cot_date := 20, commercial_net := -80000 },
   { cot_date := 30, commercial_net := -80000 },
   { cot_date := 40, commercial_net := -80000 },
   { cot_date := 50, commercial_net := -80000 },
   { cot_date := 60, commercial_net := -15000 },
   { cot_date := 70, commercial_net := -15000 },
   { cot_date := 80, commercial_net := -15000 },
   { cot_date := 90, commercial_net := -15000 },
   { cot_date := 100, commercial_net := -15000 },
   { cot_date := 110, commercial_net := -15000 },
   { cot_date := 120, commercial_net := 0 }]

/-- Entry/exit prices for `c7Reports`: the six strong-short weeks rally
17 → 18 (winning trades), the six mild-short weeks fall 17 → 16 (losing
trades). -/
def c7Prices : List PricePoint :=
  [{ date := 1, price := 17 }, { date := 8, price := 18 },
   { date := 11, price := 17 }, { date := 18, price := 18 },
   { date := 21, price := 17 }, { date := 28, price := 18 },
   { date := 31, price := 17 }, { date := 38, price := 18 },
   { date := 41, price := 17 }, { date := 48, price := 18 },
   { date := 51, price := 17 }, { date := 58, price := 18 },
   { date := 61, price := 17 }, { date := 68, price := 16 },
   { date := 71, price := 17 }, { date := 78, price := 16 },
   { date := 81, price := 17 }, { date := 88, price := 16 },
   { date := 91, price := 17 }, { date := 98, price := 16 },
   { date := 101, price := 17 }, { date := 108, price := 16 },
   { date := 111, price := 17 }, { date := 118, price := 16 }]

/-- The sweep row produced at threshold −70000 on `c7Reports`/`c7Prices`:
only 6 trades, but profit factor 5982 — the largest in the whole table. -/
def c7Row : AnalysisRow :=
  { threshold := -70000, trades := 6, profit_factor := 5982 }

/-- Evaluation of the sweep on the concrete data: the six tight thresholds
each select the 6 winning trades (profit factor 5982, via the
`losing_pips = 1` substitution), while −10000 selects all 12 trades with
profit factor 5982/6018. -/
theorem c7_analyze_eval :
    analyze_thresholds c7Reports c7Prices =
      [{ threshold := -70000, trades := 6, profit_factor := 5982 },
       { threshold := -60000, trades := 6, profit_factor := 5982 },
       { threshold := -50000, trades := 6, profit_factor := 5982 },
       { threshold := -40000, trades := 6, profit_factor := 5982 },
       { threshold := -30000, trades := 6, profit_factor := 5982 },
       { threshold := -20000, trades := 6, profit_factor := 5982 },
       { threshold := -10000, trades := 12, profit_factor := 5982/6018 }] := by
  norm_num [analyze_thresholds, thresholdsList, backtest_threshold,
    align_cot_with_prices, alignRecords, alignOne, signalTrades, analysisRow,
    profit_factor_analyze, winning_pips, losing_pips, ledger, mkSimTrade,
    position_size, spread_pips, stop_loss_pips, c7Reports, c7Prices,
    List.filterMap_cons, List.filterMap_nil, List.find?_cons, List.find?_nil,
    List.filter_cons, List.filter_nil, List.take, List.length_cons,
    List.length_nil, List.sum_cons, List.sum_nil, List.map_cons, List.map_nil,
    List.cons_ne_nil]

/-- Witness for C7: on `c7Reports`/`c7Prices` the row at threshold −70000
has the maximal profit factor of the unfiltered sweep yet, having only 6
trades, is not the ranked best. -/
theorem c7_small_samples_excluded_witness :
    generate_report_best c7Reports c7Prices ≠ some c7Row := by
  refine c7_small_samples_excluded_from_ranking c7Reports c7Prices c7Row
    ?_ (by norm_num [c7Row]) ?_
  · rw [c7_analyze_eval]
    exact List.mem_cons_self _ _
  · intro s hs
    rw [c7_analyze_eval] at hs
    simp only [List.mem_cons, List.not_mem_nil, or_false] at hs
    rcases hs with rfl | rfl | rfl | rfl | rfl | rfl | rfl <;>
      norm_num [c7Row]
